import Mathlib

/-!
Shallow embedding of the heuristic scoring core of `src/script.js`
(class `HallucinationDetector`, lines 62-499): the four analyzers
(`analyzeLanguagePatterns`, `analyzeStatisticalFeatures`,
`analyzeSemanticFeatures`, `analyzeReadabilityFeatures`), the local
aggregator `advancedLocalAnalysis`, the band tables
(`generateFactorsFromScore`, `generateRecommendationsFromScore`), the
external-classifier response adapter `parseHuggingFaceResponse`, and the
backend-selection function `callHallucinationAPI`.

Modelling conventions:
* Text is `List Char`.  JS `String.prototype.length` is the number of
  UTF-16 units, which for the inputs analysed here (Basic Multilingual
  Plane text) equals the number of characters.
* JS numbers used as scores are always integers in this code (sums of
  integer constants, `Math.min`/`Math.max` of integers), embedded as `Int`.
* The divisions in the statistical/readability analyzers can produce
  NaN (`0/0`) or Infinity (`x/0`, `x > 0`).  They are embedded as `JNum`
  (an exact rational, NaN, or a signed infinity) with JS comparison
  semantics (every comparison with NaN is false).  Division of nonzero
  by zero follows the sign of the numerator, as in JS.
* Regular-expression operations are embedded as direct scanners with the
  exact JS semantics they have on this code: leftmost scanning, ordered
  alternation, greedy quantifiers with backtracking, `\b` word
  boundaries, and JS `split` boundary behaviour (leading/trailing empty
  pieces kept, at least one piece for every input).
* `toLowerCase` is embedded for the ASCII range, which covers every
  lexicon entry and every input the theorems evaluate.
-/

/-! ## JS string primitives -/

/-- JS regex `\s` for the ASCII range: space, tab, newline, carriage
return, vertical tab, form feed. -/
def isWsChar (c : Char) : Bool :=
  c = ' ' || c = '\t' || c = '\n' || c = '\r' || c = Char.ofNat 11 || c = Char.ofNat 12

/-- ASCII lower-casing of one character, the fragment of JS
`toLowerCase` exercised by this program. -/
def jsToLowerChar (c : Char) : Char :=
  if 'A' ≤ c ∧ c ≤ 'Z' then Char.ofNat (c.toNat + 32) else c

/-- `content.toLowerCase()`. -/
def jsToLower (s : List Char) : List Char :=
  s.map jsToLowerChar

/-- JS `String.prototype.includes`: substring containment. -/
def containsSub (sub s : List Char) : Bool :=
  s.tails.any (fun t => sub.isPrefixOf t)

/-- JS `split` on a regex matching nonempty runs of characters satisfying
`p` (used for `split(/\s+/)` and `split(/[.!?]+/)`): pieces between
maximal runs, keeping empty leading/trailing pieces, and `[""]` for the
empty string, exactly as in JS.  A separator character either extends
the run that follows it (next character also matches) or closes the
current piece; a non-separator character is prepended to the first
piece of the rest. -/
def jsSplitRuns (p : Char → Bool) : List Char → List (List Char)
  | [] => [[]]
  | c :: cs =>
    if p c then
      match cs with
      | [] => [[], []]
      | d :: _ =>
        if p d then jsSplitRuns p cs
        else [] :: jsSplitRuns p cs
    else
      match jsSplitRuns p cs with
      | t :: ts => (c :: t) :: ts
      | [] => [[c]]

/-- `content.split(/\s+/)`. -/
def jsSplitWs (s : List Char) : List (List Char) :=
  jsSplitRuns isWsChar s

/-- JS regex `[.!?]`. -/
def isPunctChar (c : Char) : Bool :=
  c = '.' || c = '!' || c = '?'

/-- `content.split(/[.!?]+/)`. -/
def jsSplitPunct (s : List Char) : List (List Char) :=
  jsSplitRuns isPunctChar s

/-- JS `String.prototype.trim` (ASCII whitespace). -/
def jsTrim (s : List Char) : List Char :=
  ((s.dropWhile isWsChar).reverse.dropWhile isWsChar).reverse

/-- JS `split(',')`: split at every single comma. -/
def splitOnComma (s : List Char) : List (List Char) :=
  go s []
where
  go : List Char → List Char → List (List Char)
    | [], acc => [acc.reverse]
    | c :: cs, acc =>
      if c = ',' then acc.reverse :: go cs []
      else go cs (c :: acc)

/-- Lengths of the maximal runs of characters satisfying `p`, in order:
the lengths of the matches of the global regex `p+` (used for
`match(/[.!?]+/g)` and the vowel-group count `match(/[aeiouy]+/gi)`). -/
def runLengths (p : Char → Bool) : List Char → List Nat
  | [] => []
  | c :: cs =>
    if p c then
      match cs with
      | [] => [1]
      | d :: _ =>
        if p d then
          match runLengths p cs with
          | n :: rest => (n + 1) :: rest
          | [] => [1]
        else 1 :: runLengths p cs
    else runLengths p cs

/-- Index of the last newline in a list, if any. -/
def lastNewlineIdx (s : List Char) : Option Nat :=
  ((s.enum.filter (fun x => x.2 = '\n')).getLast?).map (fun x => x.1)

/-- `content.split(/\n\s*\n/)`: JS scanning for the separator regex
"newline, greedy whitespace, newline".  At a `'\n'` the greedy `\s*`
with its final `\n` consumes up to the last newline of the maximal
whitespace run that follows; if that run holds no newline the position
does not match and the character joins the current piece.

The recursion is driven by a fuel counter so that it is structural (and
hence reduces inside the kernel); every step consumes at least one
character, so fuel equal to the length of the input never runs out and
the fuel-exhausted branch is unreachable. -/
def jsSplitParaGo : Nat → List Char → List Char → List (List Char)
  | _, [], acc => [acc.reverse]
  | 0, s, acc => [acc.reverse ++ s]
  | fuel + 1, c :: cs, acc =>
    if c = '\n' then
      match lastNewlineIdx (cs.takeWhile isWsChar) with
      | some j => acc.reverse :: jsSplitParaGo fuel (cs.drop (j + 1)) []
      | none => jsSplitParaGo fuel cs ('\n' :: acc)
    else jsSplitParaGo fuel cs (c :: acc)

/-- `content.split(/\n\s*\n/)`. -/
def jsSplitPara (s : List Char) : List (List Char) :=
  jsSplitParaGo s.length s []

/-! ## JS numbers with NaN and infinities

The statistical and readability analyzers divide, subtract, square and
compare exact values that a JS engine holds as floats.  To keep every
comparison kernel-computable, finite values are embedded as
unnormalized exact fractions over `Int`/`Nat` (never reduced, so no gcd
is ever taken); every fraction the analyzers build has a positive
denominator, so the cross-multiplication comparison below is the
rational-number order. -/

/-- An unnormalized exact fraction `num / den`. -/
structure Frac where
  num : Int
  den : Nat
deriving DecidableEq, Repr

/-- A natural number as a fraction. -/
def Frac.ofNat (n : Nat) : Frac :=
  ⟨n, 1⟩

/-- Exact fraction addition (no normalization). -/
def Frac.add (a b : Frac) : Frac :=
  ⟨a.num * b.den + b.num * a.den, a.den * b.den⟩

/-- Exact fraction subtraction. -/
def Frac.sub (a b : Frac) : Frac :=
  ⟨a.num * b.den - b.num * a.den, a.den * b.den⟩

/-- Exact fraction multiplication. -/
def Frac.mul (a b : Frac) : Frac :=
  ⟨a.num * b.num, a.den * b.den⟩

/-- `a < b` by cross multiplication (exact for positive
denominators). -/
def Frac.blt (a b : Frac) : Bool :=
  a.num * (b.den : Int) < b.num * (a.den : Int)

/-- JS `reduce((sum, x) => sum + x, 0)`. -/
def Frac.sumList (l : List Frac) : Frac :=
  l.foldl Frac.add ⟨0, 1⟩

/-- The JS number values the scoring core can produce: an exact finite
value, NaN, or a signed infinity. -/
inductive JNum where
  | fin (q : Frac)
  | nan
  | posInf
  | negInf
deriving DecidableEq, Repr

/-- JS division `a / b` of a finite value by a natural count: `0/0` is
NaN and `a/0` for `a ≠ 0` is a signed infinity. -/
def jsDiv (a : Frac) (b : Nat) : JNum :=
  if b = 0 then
    if a.num = 0 then JNum.nan
    else if 0 < a.num then JNum.posInf else JNum.negInf
  else JNum.fin ⟨a.num, a.den * b⟩

/-- JS `x < c` for a JS number against a finite constant: false for NaN
and `+Infinity`, true for `-Infinity`. -/
def JNum.ltF : JNum → Frac → Bool
  | .fin a, c => a.blt c
  | .nan, _ => false
  | .posInf, _ => false
  | .negInf, _ => true

/-- JS `x > c` for a JS number against a finite constant: false for NaN
and `-Infinity`, true for `+Infinity`. -/
def JNum.gtF : JNum → Frac → Bool
  | .fin a, c => c.blt a
  | .nan, _ => false
  | .posInf, _ => true
  | .negInf, _ => false

/-- The population-variance computation of `analyzeStatisticalFeatures`
(and its paragraph variant), lines 305-306 / 339-340:
`reduce(sum + pow(x - avg, 2), 0) / length` with
`avg = reduce(sum + x, 0) / length`.  On the empty list both divisions
are `0/0`, hence NaN, exactly as in JS: the reduce of an empty array
with initial value 0 is 0, and the squared deviations from a NaN mean
are only ever summed over the empty list. -/
def varianceOf (l : List Frac) : JNum :=
  match jsDiv (Frac.sumList l) l.length with
  | .fin avg =>
    jsDiv (Frac.sumList (l.map (fun x => (x.sub avg).mul (x.sub avg)))) l.length
  | _ => jsDiv ⟨0, 1⟩ l.length

/-- JS `Math.round` on an exact rational: floor of `x + 1/2` (used only
by the external-classifier adapter, whose probabilities are modelled in
`ℚ`). -/
def jsRound (q : ℚ) : Int :=
  ⌊q + 1 / 2⌋

/-! ## Regex scanners of the semantic analyzer -/

/-- JS regex `\d`. -/
def isDigitChar (c : Char) : Bool :=
  '0' ≤ c && c ≤ '9'

/-- The first `k` characters exist and are digits. -/
def matchDigits (k : Nat) (s : List Char) : Bool :=
  (s.take k).length = k && (s.take k).all isDigitChar

/-- Length of the leading digit run. -/
def digitRunLen (s : List Char) : Nat :=
  (s.takeWhile isDigitChar).length

/-- One greedy attempt at `\d{n1}sep\d{1,2}` with the first part fixed
to `n1` digits (the inner `{1,2}` tries two digits, then one). -/
def tryPair (sep : Char) (n1 : Nat) (s : List Char) : Option Nat :=
  if matchDigits n1 s ∧ (s.drop n1).head? = some sep then
    if matchDigits 2 (s.drop (n1 + 1)) then some (n1 + 1 + 2)
    else if matchDigits 1 (s.drop (n1 + 1)) then some (n1 + 1 + 1)
    else none
  else none

/-- `\d{1,2}sep\d{1,2}` at the head of `s`: greedy, so two leading
digits are tried before one. -/
def matchSepPair (sep : Char) (s : List Char) : Option Nat :=
  match tryPair sep 2 s with
  | some n => some n
  | none => tryPair sep 1 s

/-- `\d+%` at the head of `s`: the maximal digit run followed by `%`
(a shorter run would leave `%` facing a digit, so backtracking cannot
succeed). -/
def matchPercent (s : List Char) : Option Nat :=
  let d := digitRunLen s
  if 1 ≤ d ∧ (s.drop d).head? = some '%' then some (d + 1) else none

/-- `\d+\.\d+` at the head of `s` (same backtracking argument: only the
maximal digit runs can match). -/
def matchDecimal (s : List Char) : Option Nat :=
  let d1 := digitRunLen s
  if 1 ≤ d1 ∧ (s.drop d1).head? = some '.' then
    let d2 := digitRunLen (s.drop (d1 + 1))
    if 1 ≤ d2 then some (d1 + 1 + d2) else none
  else none

/-- One attempt of the factual-claims regex
`\d{4}|\d{1,2}\/\d{1,2}|\d{1,2}-\d{1,2}|\d+%|\d+\.\d+` at the head of
`s`: JS alternation is ordered, so the first alternative that matches
wins. -/
def factualMatchAt (s : List Char) : Option Nat :=
  if matchDigits 4 s then some 4
  else match matchSepPair '/' s with
  | some n => some n
  | none => match matchSepPair '-' s with
    | some n => some n
    | none => match matchPercent s with
      | some n => some n
      | none => matchDecimal s

/-- Number of matches of a global regex whose attempts are given by
`matchAt`: scan left to right, consume each match, advance one character
past a failed attempt (every attempt here consumes at least one
character, so a `some 0` is treated as a failure).  Fuel-driven for
kernel reducibility; fuel equal to the input length never runs out. -/
def scanCountGo (matchAt : List Char → Option Nat) : Nat → List Char → Nat
  | _, [] => 0
  | 0, _ => 0
  | fuel + 1, c :: cs =>
    match matchAt (c :: cs) with
    | some (n + 1) => 1 + scanCountGo matchAt fuel (cs.drop n)
    | _ => scanCountGo matchAt fuel cs

/-- Number of matches of the global regex over the whole input. -/
def scanCount (matchAt : List Char → Option Nat) (s : List Char) : Nat :=
  scanCountGo matchAt s.length s

/-- `content.match(/\d{4}|\d{1,2}\/\d{1,2}|\d{1,2}-\d{1,2}|\d+%|\d+\.\d+/g)`,
line 356: the number of matches (only the count is used). -/
def factualClaimCount (content : List Char) : Nat :=
  scanCount factualMatchAt content

/-- JS regex `\w` (word character, for `\b`). -/
def isWordChar (c : Char) : Bool :=
  ('a' ≤ c && c ≤ 'z') || ('A' ≤ c && c ≤ 'Z') || isDigitChar c || c = '_'

/-- ASCII `[A-Z]`. -/
def isUpperChar (c : Char) : Bool :=
  'A' ≤ c && c ≤ 'Z'

/-- ASCII `[a-z]`. -/
def isLowerChar (c : Char) : Bool :=
  'a' ≤ c && c ≤ 'z'

/-- `\b` holds before the head of the remaining input when the previous
character (if any) is not a word character; the head itself is a word
character in both alternatives of the jargon regex. -/
def boundaryBefore (prev : Option Char) : Bool :=
  match prev with
  | none => true
  | some c => !isWordChar c

/-- `\b` holds after a word character when the next character (if any)
is not a word character. -/
def boundaryNext (s : List Char) : Bool :=
  match s.head? with
  | none => true
  | some c => !isWordChar c

/-- `\b[A-Z]{2,}\b` at the head of `s` given the previous character:
the maximal uppercase run, of length at least two, ending at a word
boundary.  Backtracking inside the run cannot help: every character of
the run is a word character, so only the full run can end at a
boundary. -/
def techAlt1 (prev : Option Char) (s : List Char) : Option Nat :=
  if boundaryBefore prev then
    let u := (s.takeWhile isUpperChar).length
    if 2 ≤ u ∧ boundaryNext (s.drop u) then some u else none
  else none

/-- `\b[a-z]+[A-Z][a-z]+\b` at the head of `s` given the previous
character.  Both `[a-z]+` runs are forced to be maximal: shortening
either leaves the next pattern character facing a lowercase letter. -/
def techAlt2 (prev : Option Char) (s : List Char) : Option Nat :=
  if boundaryBefore prev then
    let l1 := (s.takeWhile isLowerChar).length
    if 1 ≤ l1 then
      match (s.drop l1).head? with
      | some c =>
        if isUpperChar c then
          let l2 := ((s.drop (l1 + 1)).takeWhile isLowerChar).length
          if 1 ≤ l2 ∧ boundaryNext (s.drop (l1 + 1 + l2)) then
            some (l1 + 1 + l2)
          else none
        else none
      | none => none
    else none
  else none

/-- One attempt of the jargon regex `\b[A-Z]{2,}\b|\b[a-z]+[A-Z][a-z]+\b`
(ordered alternation). -/
def techMatchAt (prev : Option Char) (s : List Char) : Option Nat :=
  match techAlt1 prev s with
  | some n => some n
  | none => techAlt2 prev s

/-- Global scan for the jargon regex, tracking the previous character
for the word boundaries.  Fuel-driven for kernel reducibility; fuel
equal to the input length never runs out. -/
def scanTechGo : Nat → Option Char → List Char → Nat
  | _, _, [] => 0
  | 0, _, _ => 0
  | fuel + 1, prev, c :: cs =>
    match techMatchAt prev (c :: cs) with
    | some (n + 1) =>
      1 + scanTechGo fuel ((c :: cs).take (n + 1)).getLast? (cs.drop n)
    | _ => scanTechGo fuel (some c) cs

/-- Global scan for the jargon regex over the whole input. -/
def scanTech (prev : Option Char) (s : List Char) : Nat :=
  scanTechGo s.length prev s

/-- `content.match(/\b[A-Z]{2,}\b|\b[a-z]+[A-Z][a-z]+\b/g)`, line 363:
the number of matches. -/
def technicalTermCount (content : List Char) : Nat :=
  scanTech none content

/-! ## Data model -/

/-- The `{ score, factors }` object each analyzer returns. -/
structure AnalyzerResult where
  score : Int
  factors : List String
deriving DecidableEq, Repr

/-- The inner `analysis` object of the final result (lines 216-221 and
134-139): confidence, factor list, recommendation list and a summary
string (the source names the summary field `analysis` as well). -/
structure AnalysisDetails where
  confidence : Int
  factors : List String
  recommendations : List String
  analysis : String
deriving DecidableEq, Repr

/-- The `{ score, analysis: {...} }` result of `advancedLocalAnalysis`
and `parseHuggingFaceResponse`. -/
structure ScoreResult where
  score : Int
  analysis : AnalysisDetails
deriving DecidableEq, Repr

/-! ## Lexicons (lines 235-247, 273, 284, 370, 381) -/

/-- `aiPatterns`, lines 235-247.  The array lists `moreover` twice
(first row and seventh row), exactly as in the source. -/
def aiPatterns : List (List Char) :=
  ["furthermore", "moreover", "additionally", "in conclusion", "to summarize",
   "it is important to note", "it should be mentioned", "as previously stated",
   "in terms of", "with regard to", "in the context of", "it is worth noting",
   "on the other hand", "conversely", "nevertheless", "however",
   "in light of", "considering", "given that", "as such", "therefore",
   "thus", "hence", "consequently", "accordingly", "subsequently",
   "meanwhile", "further", "moreover", "besides", "likewise",
   "similarly", "in addition", "not only", "but also", "as well as",
   "in order to", "so as to", "with the aim of", "for the purpose of",
   "it can be argued", "it is evident", "it is clear", "it is obvious",
   "as a result", "due to", "because of", "owing to", "thanks to"].map String.data

/-- `hedgingWords`, line 273. -/
def hedgingWords : List (List Char) :=
  ["might", "could", "possibly", "perhaps", "maybe", "seems", "appears",
   "likely", "probably", "potentially", "arguably", "presumably",
   "supposedly", "allegedly"].map String.data

/-- `formalPatterns`, line 284. -/
def formalPatterns : List (List Char) :=
  ["in accordance with", "pursuant to", "with respect to", "in relation to",
   "in reference to", "in regard to", "as per", "pertaining to",
   "concerning", "regarding"].map String.data

/-- `emotionalWords`, line 370. -/
def emotionalWords : List (List Char) :=
  ["amazing", "incredible", "fantastic", "terrible", "horrible", "wonderful",
   "excellent", "outstanding", "remarkable", "extraordinary", "phenomenal",
   "spectacular"].map String.data

/-- `descriptiveWords`, line 381.  The array lists `comprehensive`
twice, exactly as in the source. -/
def descriptiveWords : List (List Char) :=
  ["comprehensive", "thorough", "detailed", "extensive", "elaborate",
   "comprehensive", "systematic", "methodical", "rigorous",
   "meticulous"].map String.data

/-! ## Language pattern analyzer (lines 229-295) -/

/-- `aiPatternCount`, lines 249-251: the number of `aiPatterns` entries
(duplicates counted separately) that occur as substrings of the
lower-cased text. -/
def aiPatternCount (content : List Char) : Nat :=
  (aiPatterns.filter (fun pat => containsSub pat (jsToLower content))).length

/-- The AI-connective score contribution, lines 254-257:
`min(40, aiPatternCount * 8)` when at least one entry matched. -/
def aiConnectiveScore (content : List Char) : Int :=
  if 0 < aiPatternCount content then
    min 40 ((aiPatternCount content : Int) * 8)
  else 0

/-- `repetitivePhrases`, lines 260-266: the number of distinct 3-word
windows (joined with single spaces) that occur more than once among all
contiguous windows of the whitespace-split lower-cased word list. -/
def repetitivePhraseCount (content : List Char) : Nat :=
  let words := jsSplitWs (jsToLower content)
  let windows := (List.range (words.length - 2)).map
    (fun i => List.intercalate [' '] ((words.drop i).take 3))
  ((windows.dedup).filter (fun w => 1 < windows.count w)).length

/-- `hedgingCount`, lines 274-276. -/
def hedgingCount (content : List Char) : Nat :=
  (hedgingWords.filter (fun w => containsSub w (jsToLower content))).length

/-- `formalCount`, lines 285-287. -/
def formalCount (content : List Char) : Nat :=
  (formalPatterns.filter (fun pat => containsSub pat (jsToLower content))).length

/-- `analyzeLanguagePatterns`, lines 229-295: the four contributions in
source order, each `score +=` and `factors.push` folded into one
conditional. -/
def analyzeLanguagePatterns (content : List Char) : AnalyzerResult :=
  let aiCount := aiPatternCount content
  let score1 : Int := if 0 < aiCount then min 40 ((aiCount : Int) * 8) else 0
  let factors1 : List String :=
    if 0 < aiCount then
      ["AI-generated language patterns detected (" ++ toString aiCount ++ " instances)"]
    else []
  let repCount := repetitivePhraseCount content
  let score2 : Int := if 1 < repCount then min 35 ((repCount : Int) * 5) else 0
  let factors2 : List String :=
    if 1 < repCount then
      ["Repetitive language patterns found (" ++ toString repCount ++ " instances)"]
    else []
  let hedgeCount := hedgingCount content
  let score3 : Int := if 1 < hedgeCount then min 25 ((hedgeCount : Int) * 4) else 0
  let factors3 : List String :=
    if 1 < hedgeCount then
      ["Hedging language detected (" ++ toString hedgeCount ++ " instances)"]
    else []
  let fmlCount := formalCount content
  let score4 : Int := if 0 < fmlCount then min 20 ((fmlCount : Int) * 6) else 0
  let factors4 : List String :=
    if 0 < fmlCount then
      ["Formal academic language patterns detected (" ++ toString fmlCount ++ " instances)"]
    else []
  { score := score1 + score2 + score3 + score4,
    factors := factors1 ++ factors2 ++ factors3 ++ factors4 }

/-! ## Statistical analyzer (lines 297-349) -/

/-- The sentence list of lines 301 / 398:
`content.split(/[.!?]+/).filter(s => s.trim().length > 0)`. -/
def sentencesOf (content : List Char) : List (List Char) :=
  (jsSplitPunct content).filter (fun s => 0 < (jsTrim s).length)

/-- `highFreqWords.length` of lines 314-321: the number of distinct
lower-cased words longer than 2 characters whose frequency exceeds 2. -/
def highFreqWordCount (content : List Char) : Nat :=
  let words := jsSplitWs (jsToLower content)
  let longWords := words.filter (fun w => 2 < w.length)
  ((longWords.dedup).filter (fun w => 2 < longWords.count w)).length

/-- `unusualPunctuation` of lines 328-329: punctuation runs longer than
one character. -/
def unusualPunctuationCount (content : List Char) : Nat :=
  ((runLengths isPunctChar content).filter (fun n => 1 < n)).length

/-- `analyzeStatisticalFeatures`, lines 297-349. -/
def analyzeStatisticalFeatures (content : List Char) : AnalyzerResult :=
  let sentences := sentencesOf content
  let sentenceLengths := sentences.map (fun s => Frac.ofNat (jsSplitWs s).length)
  let sentenceVariance := varianceOf sentenceLengths
  let score1 : Int :=
    if sentenceVariance.ltF (Frac.ofNat 15) && 3 < sentenceLengths.length then 25 else 0
  let factors1 : List String :=
    if sentenceVariance.ltF (Frac.ofNat 15) && 3 < sentenceLengths.length then
      ["Unusually consistent sentence lengths detected"]
    else []
  let hfCount := highFreqWordCount content
  let score2 : Int := if 2 < hfCount then 20 else 0
  let factors2 : List String :=
    if 2 < hfCount then
      ["High word repetition detected (" ++ toString hfCount ++ " frequently used words)"]
    else []
  let upCount := unusualPunctuationCount content
  let score3 : Int := if 1 < upCount then 15 else 0
  let factors3 : List String :=
    if 1 < upCount then ["Unusual punctuation patterns detected"] else []
  let paragraphs := jsSplitPara content
  let paragraphLengths := paragraphs.map (fun p => Frac.ofNat (jsSplitWs p).length)
  let paragraphVariance := varianceOf paragraphLengths
  let score4 : Int :=
    if 2 < paragraphs.length then
      if paragraphVariance.ltF (Frac.ofNat 20) then 18 else 0
    else 0
  let factors4 : List String :=
    if 2 < paragraphs.length then
      if paragraphVariance.ltF (Frac.ofNat 20) then
        ["Unusually consistent paragraph lengths detected"]
      else []
    else []
  { score := score1 + score2 + score3 + score4,
    factors := factors1 ++ factors2 ++ factors3 ++ factors4 }

/-! ## Semantic analyzer (lines 351-392) -/

/-- `emotionalCount`, lines 371-373. -/
def emotionalCount (content : List Char) : Nat :=
  (emotionalWords.filter (fun w => containsSub w (jsToLower content))).length

/-- `descriptiveCount`, lines 382-384. -/
def descriptiveCount (content : List Char) : Nat :=
  (descriptiveWords.filter (fun w => containsSub w (jsToLower content))).length

/-- `analyzeSemanticFeatures`, lines 351-392. -/
def analyzeSemanticFeatures (content : List Char) : AnalyzerResult :=
  let factualClaims := factualClaimCount content
  let score1 : Int :=
    if 2 < factualClaims then min 25 ((factualClaims : Int) * 4) else 0
  let factors1 : List String :=
    if 2 < factualClaims then
      ["Multiple factual claims detected (" ++ toString factualClaims ++ " instances)"]
    else []
  let technicalTerms := technicalTermCount content
  let score2 : Int := if 4 < technicalTerms then 18 else 0
  let factors2 : List String :=
    if 4 < technicalTerms then ["High technical jargon usage detected"] else []
  let emoCount := emotionalCount content
  let score3 : Int := if 1 < emoCount then min 20 ((emoCount : Int) * 5) else 0
  let factors3 : List String :=
    if 1 < emoCount then ["High emotional language usage detected"] else []
  let descCount := descriptiveCount content
  let score4 : Int := if 0 < descCount then min 15 ((descCount : Int) * 5) else 0
  let factors4 : List String :=
    if 0 < descCount then ["Overly descriptive language detected"] else []
  { score := score1 + score2 + score3 + score4,
    factors := factors1 ++ factors2 ++ factors3 ++ factors4 }

/-! ## Readability analyzer (lines 394-445) -/

/-- ASCII `[a-zA-Z]` (the characters `replace(/[^a-zA-Z]/g, '')`
keeps). -/
def isAlphaChar (c : Char) : Bool :=
  isLowerChar c || isUpperChar c

/-- JS regex `[aeiouy]` (with the `i` flag; the words passed in are
already lower-cased). -/
def isVowelChar (c : Char) : Bool :=
  c = 'a' || c = 'e' || c = 'i' || c = 'o' || c = 'u' || c = 'y' ||
  c = 'A' || c = 'E' || c = 'I' || c = 'O' || c = 'U' || c = 'Y'

/-- `estimateSyllables`, lines 432-445: per word, strip non-letters,
count 1 syllable for words of length at most 3, else the number of
vowel-group runs with a minimum of 1; return the total divided by the
word count. -/
def estimateSyllables (words : List (List Char)) : JNum :=
  let total := Frac.sumList (words.map (fun w =>
    let cleanWord := w.filter isAlphaChar
    if cleanWord.length ≤ 3 then Frac.ofNat 1
    else Frac.ofNat (max 1 (runLengths isVowelChar cleanWord).length)))
  jsDiv total words.length

/-- The complex-sentence predicate of lines 419-421:
`sentenceWords.length > 25 || s.includes(',') && s.split(',').length > 3`
(JS `&&` binds tighter than `||`). -/
def complexSentencePred (s : List Char) : Bool :=
  25 < (jsSplitWs s).length ||
    (containsSub [','] s && 3 < (splitOnComma s).length)

/-- `complexSentences`, lines 419-422: how many sentences satisfy the
complex-sentence predicate. -/
def complexSentenceCount (content : List Char) : Nat :=
  ((sentencesOf content).filter complexSentencePred).length

/-- `analyzeReadabilityFeatures`, lines 394-430. -/
def analyzeReadabilityFeatures (content : List Char) : AnalyzerResult :=
  let words := jsSplitWs (jsToLower content)
  let sentences := sentencesOf content
  let avgWordsPerSentence := jsDiv (Frac.ofNat words.length) sentences.length
  let avgSyllablesPerWord := estimateSyllables words
  let score1 : Int :=
    if avgWordsPerSentence.gtF (Frac.ofNat 20) || avgSyllablesPerWord.gtF ⟨16, 10⟩
    then 20 else 0
  let factors1 : List String :=
    if avgWordsPerSentence.gtF (Frac.ofNat 20) || avgSyllablesPerWord.gtF ⟨16, 10⟩
    then ["Complex sentence structure detected"]
    else []
  let uniqueWords := (words.filter (fun w => 2 < w.length)).dedup
  let vocabularyDiversity := jsDiv (Frac.ofNat uniqueWords.length) words.length
  let score2 : Int :=
    if vocabularyDiversity.ltF ⟨4, 10⟩ && 30 < words.length then 18 else 0
  let factors2 : List String :=
    if vocabularyDiversity.ltF ⟨4, 10⟩ && 30 < words.length then
      ["Low vocabulary diversity detected"]
    else []
  let cxCount := complexSentenceCount content
  let score3 : Int := if 1 < cxCount then min 15 ((cxCount : Int) * 5) else 0
  let factors3 : List String :=
    if 1 < cxCount then
      ["Complex sentence structures detected (" ++ toString cxCount ++ " instances)"]
    else []
  { score := score1 + score2 + score3,
    factors := factors1 ++ factors2 ++ factors3 }

/-! ## Band tables (lines 447-499) -/

/-- `generateFactorsFromScore`, lines 447-471: the banded descriptive
factor strings keyed off a score. -/
def generateFactorsFromScore (score : Int) : List String :=
  if 60 < score then
    ["HIGH LIKELIHOOD of AI-generated content",
     "Multiple strong AI content markers detected",
     "Content shows typical AI writing patterns"]
  else if 40 < score then
    ["MODERATE to HIGH likelihood of AI-generated content",
     "Several AI content indicators present",
     "Content shows some AI writing characteristics"]
  else if 20 < score then
    ["MODERATE AI content indicators",
     "Some unusual patterns identified",
     "Content may be partially AI-generated"]
  else if 10 < score then
    ["Minor AI content markers detected",
     "Some patterns suggest AI involvement"]
  else
    ["Content appears to be human-generated",
     "Minimal AI content markers detected"]

/-- `generateRecommendationsFromScore`, lines 473-499. -/
def generateRecommendationsFromScore (score : Int) : List String :=
  if 60 < score then
    ["⚠️ HIGH LIKELIHOOD of AI-generated content",
     "Strongly recommend manual review for accuracy",
     "Cross-reference all factual claims with reliable sources",
     "Consider rewriting in more natural language"]
  else if 40 < score then
    ["⚠️ MODERATE to HIGH likelihood of AI-generated content",
     "Review for factual accuracy and natural flow",
     "Verify key claims and statements",
     "Consider human editing for authenticity"]
  else if 20 < score then
    ["⚠️ MODERATE AI content indicators",
     "Review for accuracy and natural language",
     "Some sections may need human revision"]
  else if 10 < score then
    ["Minor AI content markers detected",
     "Review for accuracy"]
  else
    ["Content appears to be human-generated",
     "Content looks good!"]

/-! ## Local aggregation (lines 146-227) -/

/-- The aggregation of `advancedLocalAnalysis`, lines 148-222, with the
outcome of each analyzer call abstracted as an `Except` so that the
per-analyzer `try`/`catch` blocks (lines 157-194) can be stated: a
caught failure contributes no score and pushes the single placeholder
factor of its `catch` block.  The running score starts at 0 and the
factors accumulate in analyzer order; the total is clamped to
`[0, 100]`; the two length-based boosts re-clamp; the recommendations
come from the final score; an empty factor list is replaced by the
default factor (line 218); the confidence of the local path is the
constant 85 (line 153). -/
def advancedLocalAnalysisCore (content : List Char)
    (langOutcome statOutcome semOutcome readOutcome : Except Unit AnalyzerResult) :
    ScoreResult :=
  let s1 : Int := match langOutcome with
    | .ok r => r.score
    | .error _ => 0
  let f1 : List String := match langOutcome with
    | .ok r => r.factors
    | .error _ => ["Language pattern analysis unavailable"]
  let s2 : Int := match statOutcome with
    | .ok r => r.score
    | .error _ => 0
  let f2 : List String := match statOutcome with
    | .ok r => r.factors
    | .error _ => ["Statistical analysis unavailable"]
  let s3 : Int := match semOutcome with
    | .ok r => r.score
    | .error _ => 0
  let f3 : List String := match semOutcome with
    | .ok r => r.factors
    | .error _ => ["Semantic analysis unavailable"]
  let s4 : Int := match readOutcome with
    | .ok r => r.score
    | .error _ => 0
  let f4 : List String := match readOutcome with
    | .ok r => r.factors
    | .error _ => ["Readability analysis unavailable"]
  let factors0 := f1 ++ f2 ++ f3 ++ f4
  let score1 : Int := min 100 (max 0 (s1 + s2 + s3 + s4))
  let score2 : Int :=
    if content.length < 100 then min 100 (score1 + 15) else score1
  let factors1 :=
    if content.length < 100 then
      factors0 ++ ["Very short content detected (potential AI-generated)"]
    else factors0
  let score3 : Int :=
    if 1000 < content.length ∧ 3 < factors1.length then min 100 (score2 + 10)
    else score2
  let factors2 :=
    if 1000 < content.length ∧ 3 < factors1.length then
      factors1 ++ ["Long content with multiple AI patterns detected"]
    else factors1
  { score := score3,
    analysis :=
      { confidence := 85,
        factors := if 0 < factors2.length then factors2
                   else ["Content analysis completed"],
        recommendations := generateRecommendationsFromScore score3,
        analysis := "Advanced local analysis completed using multiple detection methods" } }

/-- `advancedLocalAnalysis`, lines 146-227: the aggregation applied to
the four analyzers, none of which fails in the embedding (each is a
total function). -/
def advancedLocalAnalysis (content : List Char) : ScoreResult :=
  advancedLocalAnalysisCore content
    (.ok (analyzeLanguagePatterns content))
    (.ok (analyzeStatisticalFeatures content))
    (.ok (analyzeSemanticFeatures content))
    (.ok (analyzeReadabilityFeatures content))

/-! ## External-classifier response adapter (lines 123-144) -/

/-- One `{ label, score }` pair of the Hugging Face response array. -/
structure LabelScore where
  label : String
  score : ℚ
deriving DecidableEq, Repr

/-- `scores.find(s => s.label === L)?.score || 0`, lines 127-128: the
score of the first pair carrying the label, 0 when absent (the `|| 0`
maps a missing value to 0; a present score of 0 is 0 either way). -/
def lookupLabelScore (lab : String) (scores : List LabelScore) : ℚ :=
  ((scores.find? (fun s => s.label = lab)).map LabelScore.score).getD 0

/-- `parseHuggingFaceResponse`, lines 123-144: on a nonempty response
array, build the result from the first element; otherwise return
`null`. -/
def parseHuggingFaceResponse (data : List (List LabelScore)) : Option ScoreResult :=
  match data with
  | [] => none
  | scores :: _ =>
    let aiScore := lookupLabelScore "LABEL_1" scores
    let humanScore := lookupLabelScore "LABEL_0" scores
    let hallucinationScore := jsRound (aiScore * 100)
    some
      { score := hallucinationScore,
        analysis :=
          { confidence := jsRound ((aiScore + humanScore) * 100),
            factors := generateFactorsFromScore hallucinationScore,
            recommendations := generateRecommendationsFromScore hallucinationScore,
            analysis := "AI detection analysis completed using Hugging Face model" } }

/-! ## Backend selection (lines 62-82) -/

/-- `callHallucinationAPI`, lines 62-82, with the external attempt
(`tryFreeAIAPI`, whose network call is outside the core) abstracted as
its outcome: an error, a `null`, or a parsed result; and the local
analysis abstracted likewise so that the final `catch` (lines 78-81)
can be stated.  A usable external result is returned as is; an external
error or `null` falls through silently to the local analysis; a local
failure surfaces the fixed error message of line 80. -/
def callHallucinationAPI (api : Except Unit (Option ScoreResult))
    (localOutcome : Except Unit ScoreResult) : Except String ScoreResult :=
  match api with
  | .ok (some r) => .ok r
  | _ =>
    match localOutcome with
    | .ok r => .ok r
    | .error _ => .error "Analysis failed. Please try again with different content."

/-! ## Helper lemmas -/

/-- The empty-factor-list replacement of line 218 never yields an empty
list. -/
theorem ifFactors_ne_nil (l : List String) (d : String) :
    (if 0 < l.length then l else [d]) ≠ [] := by
  split_ifs with h
  · exact List.length_pos.mp h
  · simp

/-- Every band of the recommendation table is a nonempty list. -/
theorem generateRecommendationsFromScore_ne_nil (score : Int) :
    generateRecommendationsFromScore score ≠ [] := by
  unfold generateRecommendationsFromScore
  split_ifs <;> simp

/-- Well-formedness of the aggregation for arbitrary analyzer outcomes:
the final score is clamped into `[0, 100]`, the confidence is the
constant 85, and the factor and recommendation lists are nonempty. -/
theorem advancedLocalAnalysisCore_wellformed (content : List Char)
    (o1 o2 o3 o4 : Except Unit AnalyzerResult) :
    0 ≤ (advancedLocalAnalysisCore content o1 o2 o3 o4).score ∧
    (advancedLocalAnalysisCore content o1 o2 o3 o4).score ≤ 100 ∧
    (advancedLocalAnalysisCore content o1 o2 o3 o4).analysis.confidence = 85 ∧
    (advancedLocalAnalysisCore content o1 o2 o3 o4).analysis.factors ≠ [] ∧
    (advancedLocalAnalysisCore content o1 o2 o3 o4).analysis.recommendations ≠ [] := by
  refine ⟨?_, ?_, rfl, ?_, generateRecommendationsFromScore_ne_nil _⟩
  · dsimp only [advancedLocalAnalysisCore]
    split_ifs <;> omega
  · dsimp only [advancedLocalAnalysisCore]
    split_ifs <;> omega
  · dsimp only [advancedLocalAnalysisCore]
    exact ifFactors_ne_nil _ _

/-- `containsSub` is exactly infix containment. -/
theorem containsSub_spec (sub s : List Char) :
    containsSub sub s = true ↔ sub <:+: s := by
  rw [List.infix_iff_prefix_suffix]
  simp only [containsSub, List.any_eq_true, List.mem_tails]
  constructor
  · rintro ⟨t, ht, hp⟩
    exact ⟨t, List.isPrefixOf_iff_prefix.mp hp, ht⟩
  · rintro ⟨t, hp, ht⟩
    exact ⟨t, ht, List.isPrefixOf_iff_prefix.mpr hp⟩

/-- A prefix of a contained pattern is itself contained. -/
theorem containsSub_of_prefix {a b s : List Char} (hab : a <+: b)
    (h : containsSub b s = true) : containsSub a s = true := by
  rw [containsSub_spec] at h ⊢
  exact hab.isInfix.trans h

/-- A pattern that lower-casing fixes and that occurs in the raw text
also occurs in the lower-cased text. -/
theorem containsSub_jsToLower {sub s : List Char} (hfix : jsToLower sub = sub)
    (h : containsSub sub s = true) : containsSub sub (jsToLower s) = true := by
  rw [containsSub_spec] at h ⊢
  obtain ⟨u, v, huv⟩ := h
  refine ⟨jsToLower u, jsToLower v, ?_⟩
  rw [← huv]
  simp only [jsToLower, List.map_append]
  rw [show List.map jsToLowerChar sub = sub from hfix]

/-- Containment of a single character is membership. -/
theorem containsSub_singleton {x : Char} {s : List Char} :
    containsSub [x] s = true ↔ x ∈ s := by
  rw [containsSub_spec]
  constructor
  · rintro ⟨u, v, huv⟩
    rw [← huv]; simp
  · intro hx
    obtain ⟨u, v, rfl⟩ := List.append_of_mem hx
    exact ⟨u, v, by simp⟩

/-- A list with two distinguished members satisfying `P` keeps at least
two elements under `filter P`. -/
theorem two_le_length_filter {α : Type} (P : α → Bool) (l₁ l₂ l₃ : List α)
    (a b : α) (ha : P a = true) (hb : P b = true) :
    2 ≤ ((l₁ ++ a :: (l₂ ++ b :: l₃)).filter P).length := by
  simp only [List.filter_append, List.filter_cons, ha, hb, if_pos,
    List.length_append, List.length_cons]
  omega

/-- JS `split(',')` produces one more piece than there are commas. -/
theorem splitOnComma_go_length (s acc : List Char) :
    (splitOnComma.go s acc).length = s.count ',' + 1 := by
  induction s generalizing acc with
  | nil => simp [splitOnComma.go]
  | cons c cs ih =>
    by_cases hc : c = ','
    · subst hc
      simp [splitOnComma.go, ih, List.count_cons]
    · simp [splitOnComma.go, hc, ih, List.count_cons]

/-- `s.split(',').length = s.count ',' + 1`. -/
theorem splitOnComma_length (s : List Char) :
    (splitOnComma s).length = s.count ',' + 1 :=
  splitOnComma_go_length s []

/-- `Math.round(q * 100)` lies in `[0, 100]` for `q ∈ [0, 1]`. -/
theorem jsRound_mul100_bounds {q : ℚ} (h0 : 0 ≤ q) (h1 : q ≤ 1) :
    0 ≤ jsRound (q * 100) ∧ jsRound (q * 100) ≤ 100 := by
  constructor
  · exact Int.le_floor.mpr (by push_cast; linarith)
  · have h : jsRound (q * 100) < 101 := Int.floor_lt.mpr (by push_cast; linarith)
    omega

/-! ## Concrete inputs of the claims -/

/-- Fifty occurrences of the word `furthermore`, space-separated. -/
def c4text : List Char :=
  List.intercalate (" ".data) (List.replicate 50 ("furthermore".data))

/-- The scenario input of the specification. -/
def c5text : List Char :=
  ("Furthermore, it is important to note that, moreover, in conclusion, " ++
   "this report demonstrates significant findings.").data

/-- Two short sentences of exactly three commas each. -/
def c6text : List Char :=
  "a, b, c, d. e, f, g, h.".data

/-! ## Claim theorems -/

/-- Claim C2: running the local scoring core twice on the identical
string yields identical results: same score, confidence, factors list
and recommendations list.  The embedding is a pure function of the
text, which holds of the source as well: lines 146-499 read no mutable
state, no clock and no randomness (`Math.random` occurs only in the
excluded visualization layer, lines 600 and later). -/
theorem advancedLocalAnalysis_deterministic (ca cb : List Char) (h : ca = cb) :
    (advancedLocalAnalysis ca).score = (advancedLocalAnalysis cb).score ∧
    (advancedLocalAnalysis ca).analysis.confidence =
      (advancedLocalAnalysis cb).analysis.confidence ∧
    (advancedLocalAnalysis ca).analysis.factors =
      (advancedLocalAnalysis cb).analysis.factors ∧
    (advancedLocalAnalysis ca).analysis.recommendations =
      (advancedLocalAnalysis cb).analysis.recommendations := by
  subst h
  exact ⟨rfl, rfl, rfl, rfl⟩

/-- Witness for C2 at a concrete repeated input. -/
theorem advancedLocalAnalysis_deterministic_witness :
    (advancedLocalAnalysis ("sample text".data)).score =
      (advancedLocalAnalysis ("sample text".data)).score ∧
    (advancedLocalAnalysis ("sample text".data)).analysis.confidence =
      (advancedLocalAnalysis ("sample text".data)).analysis.confidence ∧
    (advancedLocalAnalysis ("sample text".data)).analysis.factors =
      (advancedLocalAnalysis ("sample text".data)).analysis.factors ∧
    (advancedLocalAnalysis ("sample text".data)).analysis.recommendations =
      (advancedLocalAnalysis ("sample text".data)).analysis.recommendations :=
  advancedLocalAnalysis_deterministic ("sample text".data) ("sample text".data) rfl

/-- Claim C3: a final score of exactly 61 selects the `> 60` band of
both fixed tables, and a final score of exactly 60 selects the
`40 < score ≤ 60` band of both, per lines 447-499. -/
theorem band_boundary_61_60 :
    generateFactorsFromScore 61 =
      ["HIGH LIKELIHOOD of AI-generated content",
       "Multiple strong AI content markers detected",
       "Content shows typical AI writing patterns"] ∧
    generateRecommendationsFromScore 61 =
      ["⚠️ HIGH LIKELIHOOD of AI-generated content",
       "Strongly recommend manual review for accuracy",
       "Cross-reference all factual claims with reliable sources",
       "Consider rewriting in more natural language"] ∧
    generateFactorsFromScore 60 =
      ["MODERATE to HIGH likelihood of AI-generated content",
       "Several AI content indicators present",
       "Content shows some AI writing characteristics"] ∧
    generateRecommendationsFromScore 60 =
      ["⚠️ MODERATE to HIGH likelihood of AI-generated content",
       "Review for factual accuracy and natural flow",
       "Verify key claims and statements",
       "Consider human editing for authenticity"] := by
  refine ⟨?_, ?_, ?_, ?_⟩ <;> rfl

/-- Claim C8: if an analyzer fails during aggregation, the aggregator
behaves exactly as if that analyzer had returned score 0 together with
the single placeholder factor naming it (first four conjuncts, one per
analyzer position), and with the failing analyzer replaced the factor
list still starts with the placeholder followed by the remaining
analyzers' factors in analyzer order (last conjunct; the aggregation
may only append boost factors after them). -/
theorem analyzer_failure_placeholder (content : List Char) :
    (∀ o2 o3 o4 : Except Unit AnalyzerResult,
      advancedLocalAnalysisCore content (.error ()) o2 o3 o4 =
        advancedLocalAnalysisCore content
          (.ok ⟨0, ["Language pattern analysis unavailable"]⟩) o2 o3 o4) ∧
    (∀ o1 o3 o4 : Except Unit AnalyzerResult,
      advancedLocalAnalysisCore content o1 (.error ()) o3 o4 =
        advancedLocalAnalysisCore content o1
          (.ok ⟨0, ["Statistical analysis unavailable"]⟩) o3 o4) ∧
    (∀ o1 o2 o4 : Except Unit AnalyzerResult,
      advancedLocalAnalysisCore content o1 o2 (.error ()) o4 =
        advancedLocalAnalysisCore content o1 o2
          (.ok ⟨0, ["Semantic analysis unavailable"]⟩) o4) ∧
    (∀ o1 o2 o3 : Except Unit AnalyzerResult,
      advancedLocalAnalysisCore content o1 o2 o3 (.error ()) =
        advancedLocalAnalysisCore content o1 o2 o3
          (.ok ⟨0, ["Readability analysis unavailable"]⟩)) ∧
    (∀ a2 a3 a4 : AnalyzerResult,
      ("Language pattern analysis unavailable" ::
          (a2.factors ++ a3.factors ++ a4.factors)) <+:
        (advancedLocalAnalysisCore content
          (.error ()) (.ok a2) (.ok a3) (.ok a4)).analysis.factors) := by
  refine ⟨fun _ _ _ => rfl, fun _ _ _ => rfl, fun _ _ _ => rfl, fun _ _ _ => rfl,
    fun a2 a3 a4 => ?_⟩
  dsimp only [advancedLocalAnalysisCore]
  split_ifs <;>
    first
      | exact List.prefix_rfl
      | exact List.prefix_append _ _
      | exact (List.prefix_append _ _).trans (List.prefix_append _ _)
      | (exfalso; simp_all)

/-- Claim C9: when the external-classifier attempt errors or yields no
usable response, the backend selection returns the local-analysis
result and never surfaces the external error; when the local analysis
itself fails, the fixed error message of line 80 is surfaced instead of
a score. -/
theorem external_fallback_behaviour (api : Except Unit (Option ScoreResult))
    (content : List Char) (hapi : api = .error () ∨ api = .ok none) :
    callHallucinationAPI api (.ok (advancedLocalAnalysis content)) =
      .ok (advancedLocalAnalysis content) ∧
    callHallucinationAPI api (.error ()) =
      .error "Analysis failed. Please try again with different content." := by
  rcases hapi with rfl | rfl <;> exact ⟨rfl, rfl⟩

/-- Witness for C9: the external attempt yields `null` on a concrete
input. -/
theorem external_fallback_behaviour_witness :
    callHallucinationAPI (.ok none) (.ok (advancedLocalAnalysis ("hello world".data))) =
      .ok (advancedLocalAnalysis ("hello world".data)) ∧
    callHallucinationAPI (.ok none) (.error ()) =
      .error "Analysis failed. Please try again with different content." :=
  external_fallback_behaviour (.ok none) ("hello world".data) (Or.inr rfl)

/-- The AI-connective lexicon written with its first `moreover` entry
(position 1) and its duplicate `moreover` entry (position 28)
distinguished. -/
theorem aiPatterns_decompA :
    aiPatterns =
      (["furthermore"].map String.data) ++ ("moreover".data) ::
        ((["additionally", "in conclusion", "to summarize",
           "it is important to note", "it should be mentioned", "as previously stated",
           "in terms of", "with regard to", "in the context of", "it is worth noting",
           "on the other hand", "conversely", "nevertheless", "however",
           "in light of", "considering", "given that", "as such", "therefore",
           "thus", "hence", "consequently", "accordingly", "subsequently",
           "meanwhile", "further"].map String.data) ++ ("moreover".data) ::
         (["besides", "likewise",
           "similarly", "in addition", "not only", "but also", "as well as",
           "in order to", "so as to", "with the aim of", "for the purpose of",
           "it can be argued", "it is evident", "it is clear", "it is obvious",
           "as a result", "due to", "because of", "owing to",
           "thanks to"].map String.data)) := rfl

/-- The AI-connective lexicon written with its `furthermore` entry
(position 0) and its `further` entry (position 27) distinguished. -/
theorem aiPatterns_decompB :
    aiPatterns =
      ([] : List (List Char)) ++ ("furthermore".data) ::
        ((["moreover", "additionally", "in conclusion", "to summarize",
           "it is important to note", "it should be mentioned", "as previously stated",
           "in terms of", "with regard to", "in the context of", "it is worth noting",
           "on the other hand", "conversely", "nevertheless", "however",
           "in light of", "considering", "given that", "as such", "therefore",
           "thus", "hence", "consequently", "accordingly", "subsequently",
           "meanwhile"].map String.data) ++ ("further".data) ::
         (["moreover", "besides", "likewise",
           "similarly", "in addition", "not only", "but also", "as well as",
           "in order to", "so as to", "with the aim of", "for the purpose of",
           "it can be argued", "it is evident", "it is clear", "it is obvious",
           "as a result", "due to", "because of", "owing to",
           "thanks to"].map String.data)) := rfl

/-- Claim C10: the lexicon lists `moreover` twice and matching counts
one per lexicon entry by substring membership against the whole
(lower-cased) text, so any text containing `moreover` gains at least 2
AI-connective matches, worth at least 16 points before the 40 cap; and
any text containing `furthermore` also matches the separate entry
`further`, so a single distinct connective word counts more than
once. -/
theorem duplicate_lexicon_double_counting :
    (∀ content : List Char, containsSub ("moreover".data) content = true →
      2 ≤ aiPatternCount content ∧ 16 ≤ aiConnectiveScore content) ∧
    (∀ content : List Char, containsSub ("furthermore".data) content = true →
      containsSub ("further".data) (jsToLower content) = true ∧
      2 ≤ aiPatternCount content) := by
  have hfixm : jsToLower ("moreover".data) = "moreover".data := by decide
  have hfixf : jsToLower ("furthermore".data) = "furthermore".data := by decide
  have hpre : ("further".data) <+: ("furthermore".data) := ⟨"more".data, rfl⟩
  constructor
  · intro content h
    have hm : containsSub ("moreover".data) (jsToLower content) = true :=
      containsSub_jsToLower hfixm h
    have hcount : 2 ≤ aiPatternCount content := by
      unfold aiPatternCount
      rw [aiPatterns_decompA]
      exact two_le_length_filter _ _ _ _ _ _ hm hm
    refine ⟨hcount, ?_⟩
    unfold aiConnectiveScore
    rw [if_pos (by omega : 0 < aiPatternCount content)]
    have h2 : (2 : Int) ≤ (aiPatternCount content : Int) := by exact_mod_cast hcount
    omega
  · intro content h
    have hf : containsSub ("furthermore".data) (jsToLower content) = true :=
      containsSub_jsToLower hfixf h
    have hfr : containsSub ("further".data) (jsToLower content) = true :=
      containsSub_of_prefix hpre hf
    refine ⟨hfr, ?_⟩
    unfold aiPatternCount
    rw [aiPatterns_decompB]
    exact two_le_length_filter _ _ _ _ _ _ hf hfr

/-- Witness for C10 at concrete one-word texts. -/
theorem duplicate_lexicon_double_counting_witness :
    2 ≤ aiPatternCount ("moreover".data) ∧
    containsSub ("further".data) (jsToLower ("furthermore".data)) = true ∧
    2 ≤ aiPatternCount ("furthermore".data) :=
  ⟨(duplicate_lexicon_double_counting.1 ("moreover".data) (by decide)).1,
   (duplicate_lexicon_double_counting.2 ("furthermore".data) (by decide)).1,
   (duplicate_lexicon_double_counting.2 ("furthermore".data) (by decide)).2⟩

/-- Claim C4 counterexample: on fifty space-separated occurrences of
`furthermore` the language-pattern analyzer contributes 16, not 40.
Matching is by lexicon-entry membership, not occurrence counting: the
only entries contained in the text are `furthermore` and `further`
(a substring of `furthermore`), so `min(40, 2 * 8) = 16`; the 48
repeated 3-word windows form a single distinct repeated phrase, below
the `> 1` threshold, and no hedging or formal entry matches. -/
theorem furthermore50_contribution_cex :
    aiPatternCount c4text = 2 ∧
    aiConnectiveScore c4text = 16 ∧
    (analyzeLanguagePatterns c4text).score = 16 ∧
    ¬((analyzeLanguagePatterns c4text).score = 40) := by
  set_option maxRecDepth 200000 in
  refine ⟨by decide, by decide, by decide, by decide⟩

/-- Claim C4 as amended: the 50-fold `furthermore` text matches exactly
the two lexicon entries `furthermore` and `further`, so the
language-pattern contribution is `min(40, 2 * 8) = 16`, which does not
exceed the 40 cap. -/
theorem furthermore50_contribution :
    aiPatternCount c4text = 2 ∧
    aiConnectiveScore c4text = min 40 (2 * 8) ∧
    (analyzeLanguagePatterns c4text).score = 16 ∧
    (analyzeLanguagePatterns c4text).score ≤ 40 := by
  set_option maxRecDepth 200000 in
  refine ⟨by decide, by decide, by decide, by decide⟩

/-- Claim C5 counterexample: on the scenario input the language-pattern
contribution is `min(40, 6 * 8) = 40`, not `min(40, 4 * 8) = 32`: six
lexicon entries match, not four, because `moreover` is listed twice in
the lexicon and `further` matches inside `furthermore`. -/
theorem connective_scenario_cex :
    aiPatternCount c5text = 6 ∧
    aiConnectiveScore c5text = 40 ∧
    ¬(aiConnectiveScore c5text = 32) := by
  refine ⟨by decide, by decide, by decide⟩

/-- Claim C5 as amended: the scenario input matches the six entries
`furthermore`, `moreover` (twice: the lexicon lists it twice),
`in conclusion`, `it is important to note` and `further` (inside
`furthermore`), so the language-pattern contribution is
`min(40, 6 * 8) = 40`, and the whole language-pattern analyzer returns
exactly that score with the single factor citing 6 instances. -/
theorem connective_scenario_contribution :
    aiPatternCount c5text = 6 ∧
    aiConnectiveScore c5text = min 40 (6 * 8) ∧
    (analyzeLanguagePatterns c5text).score = 40 ∧
    (analyzeLanguagePatterns c5text).factors =
      ["AI-generated language patterns detected (6 instances)"] := by
  refine ⟨by decide, by decide, by decide, by decide⟩

/-- The first two checks of `analyzeReadabilityFeatures` (lines
400-416): the complex-structure check and the vocabulary-diversity
check, without the complex-sentence-count check. -/
def readabilityBaseScore (content : List Char) : Int :=
  let words := jsSplitWs (jsToLower content)
  let sentences := sentencesOf content
  let avgWordsPerSentence := jsDiv (Frac.ofNat words.length) sentences.length
  let avgSyllablesPerWord := estimateSyllables words
  let score1 : Int :=
    if avgWordsPerSentence.gtF (Frac.ofNat 20) || avgSyllablesPerWord.gtF ⟨16, 10⟩
    then 20 else 0
  let uniqueWords := (words.filter (fun w => 2 < w.length)).dedup
  let vocabularyDiversity := jsDiv (Frac.ofNat uniqueWords.length) words.length
  let score2 : Int :=
    if vocabularyDiversity.ltF ⟨4, 10⟩ && 30 < words.length then 18 else 0
  score1 + score2

/-- The factors of the first two checks of
`analyzeReadabilityFeatures`. -/
def readabilityBaseFactors (content : List Char) : List String :=
  let words := jsSplitWs (jsToLower content)
  let sentences := sentencesOf content
  let avgWordsPerSentence := jsDiv (Frac.ofNat words.length) sentences.length
  let avgSyllablesPerWord := estimateSyllables words
  let factors1 : List String :=
    if avgWordsPerSentence.gtF (Frac.ofNat 20) || avgSyllablesPerWord.gtF ⟨16, 10⟩
    then ["Complex sentence structure detected"]
    else []
  let uniqueWords := (words.filter (fun w => 2 < w.length)).dedup
  let vocabularyDiversity := jsDiv (Frac.ofNat uniqueWords.length) words.length
  let factors2 : List String :=
    if vocabularyDiversity.ltF ⟨4, 10⟩ && 30 < words.length then
      ["Low vocabulary diversity detected"]
    else []
  factors1 ++ factors2

/-- Following the words of claim C6 (not the source): count the
sentences that have more than 25 words or contain more than 3
commas. -/
def specComplexSentenceCount (content : List Char) : Nat :=
  ((sentencesOf content).filter
    (fun s => 25 < (jsSplitWs s).length || 3 < s.count ',')).length

/-- Claim C6 counterexample: two short sentences of exactly 3 commas
each.  Under the claim's reading (more than 3 commas) neither sentence
is complex and no factor is due, but the source counts a sentence as
complex already at 3 commas (`s.split(',').length > 3`), so the
analyzer emits the complex-structures factor citing 2 instances and
adds 10. -/
theorem complex_sentence_comma_threshold_cex :
    specComplexSentenceCount c6text = 0 ∧
    complexSentenceCount c6text = 2 ∧
    (analyzeReadabilityFeatures c6text).score = 10 ∧
    (analyzeReadabilityFeatures c6text).factors =
      ["Complex sentence structures detected (2 instances)"] := by
  refine ⟨by decide, by decide, by decide, by decide⟩

/-- Claim C6 as amended: the readability analyzer counts the sentences
that either have more than 25 whitespace-split parts or contain at
least 3 commas (split on commas into more than 3 pieces), and exactly
when this count is greater than 1 it adds `min(15, count * 5)` on top
of its other two checks and emits one factor citing the count. -/
theorem complex_sentence_semantics :
    (∀ content : List Char,
      (analyzeReadabilityFeatures content).score =
        readabilityBaseScore content +
          (if 1 < complexSentenceCount content then
            min 15 ((complexSentenceCount content : Int) * 5)
          else 0)) ∧
    (∀ content : List Char,
      (analyzeReadabilityFeatures content).factors =
        readabilityBaseFactors content ++
          (if 1 < complexSentenceCount content then
            ["Complex sentence structures detected (" ++
              toString (complexSentenceCount content) ++ " instances)"]
          else [])) ∧
    (∀ s : List Char, complexSentencePred s = true ↔
      (25 < (jsSplitWs s).length ∨ 3 ≤ s.count ',')) := by
  refine ⟨fun content => rfl, fun content => rfl, fun s => ?_⟩
  · simp only [complexSentencePred, Bool.or_eq_true, Bool.and_eq_true,
      decide_eq_true_eq, containsSub_singleton, splitOnComma_length]
    constructor
    · rintro (h | ⟨hmem, hcnt⟩)
      · exact Or.inl h
      · right; omega
    · rintro (h | h)
      · exact Or.inl h
      · refine Or.inr ⟨?_, by omega⟩
        exact List.count_pos_iff.mp (by omega)

/-- Claim C7: for every input, including a single word, text without
sentence punctuation, a 5-character string and whitespace-only text,
the local analysis is a total function returning a well-formed result:
an integer score in `[0, 100]`, confidence 85, a nonempty factor list
and a nonempty recommendation list.  The zero-sentence and zero-word
divisions of lines 305-306, 401-402, 411 and 444 are embedded as total
JS division (NaN / Infinity), and NaN reaches only branch conditions
(which JS evaluates to false), never the returned score. -/
theorem advancedLocalAnalysis_total_wellformed (content : List Char) :
    0 ≤ (advancedLocalAnalysis content).score ∧
    (advancedLocalAnalysis content).score ≤ 100 ∧
    (advancedLocalAnalysis content).analysis.confidence = 85 ∧
    (advancedLocalAnalysis content).analysis.factors ≠ [] ∧
    (advancedLocalAnalysis content).analysis.recommendations ≠ [] :=
  advancedLocalAnalysisCore_wellformed content _ _ _ _

/-- Claim C1 as amended: the local path always returns a score in
`[0, 100]` with the constant confidence 85 (which lies in `[0, 100]`);
the external-classifier path returns a score and a confidence in
`[0, 100]` provided the two label probabilities of the response are
nonnegative and sum to at most 1.  (Without that proviso the source
does not clamp the external path, see the counterexample.) -/
theorem scoreText_result_bounds :
    (∀ content : List Char,
      0 ≤ (advancedLocalAnalysis content).score ∧
      (advancedLocalAnalysis content).score ≤ 100 ∧
      (advancedLocalAnalysis content).analysis.confidence = 85) ∧
    (∀ (scores : List LabelScore) (rest : List (List LabelScore)) (r : ScoreResult),
      0 ≤ lookupLabelScore "LABEL_1" scores →
      0 ≤ lookupLabelScore "LABEL_0" scores →
      lookupLabelScore "LABEL_1" scores + lookupLabelScore "LABEL_0" scores ≤ 1 →
      parseHuggingFaceResponse (scores :: rest) = some r →
      0 ≤ r.score ∧ r.score ≤ 100 ∧
      0 ≤ r.analysis.confidence ∧ r.analysis.confidence ≤ 100) := by
  constructor
  · intro content
    obtain ⟨h1, h2, h3, -, -⟩ := advancedLocalAnalysisCore_wellformed content
      (.ok (analyzeLanguagePatterns content)) (.ok (analyzeStatisticalFeatures content))
      (.ok (analyzeSemanticFeatures content)) (.ok (analyzeReadabilityFeatures content))
    exact ⟨h1, h2, h3⟩
  · intro scores rest r h1 h0 hsum hr
    simp only [parseHuggingFaceResponse, Option.some.injEq] at hr
    subst hr
    have hai1 : lookupLabelScore "LABEL_1" scores ≤ 1 := by linarith
    have hs0 : 0 ≤ lookupLabelScore "LABEL_1" scores + lookupLabelScore "LABEL_0" scores :=
      add_nonneg h1 h0
    obtain ⟨hsc1, hsc2⟩ := jsRound_mul100_bounds h1 hai1
    obtain ⟨hcf1, hcf2⟩ := jsRound_mul100_bounds hs0 hsum
    exact ⟨hsc1, hsc2, hcf1, hcf2⟩

/-- Witness for C1: the local conjunct at a concrete text, and the
external conjunct at a concrete response carrying complementary
probabilities 1/2 and 1/2. -/
theorem scoreText_result_bounds_witness :
    (0 ≤ (advancedLocalAnalysis ("hello".data)).score ∧
     (advancedLocalAnalysis ("hello".data)).score ≤ 100 ∧
     (advancedLocalAnalysis ("hello".data)).analysis.confidence = 85) ∧
    (∀ r : ScoreResult,
      parseHuggingFaceResponse [[⟨"LABEL_1", (1 : ℚ)/2⟩, ⟨"LABEL_0", (1 : ℚ)/2⟩]] =
        some r →
      0 ≤ r.score ∧ r.score ≤ 100 ∧
      0 ≤ r.analysis.confidence ∧ r.analysis.confidence ≤ 100) := by
  refine ⟨scoreText_result_bounds.1 ("hello".data), fun r hr => ?_⟩
  refine scoreText_result_bounds.2 _ [] r ?_ ?_ ?_ hr <;>
    (simp [lookupLabelScore, List.find?]; try norm_num)

/-- Claim C1 counterexample: a response array whose two label
probabilities are each 3/4 (a shape the parser accepts: two label/score
pairs) produces `confidence = round((0.75 + 0.75) * 100) = 150 > 100`;
lines 130-135 clamp neither the score nor the confidence of the
external path. -/
theorem external_confidence_exceeds_100_cex :
    (parseHuggingFaceResponse [[⟨"LABEL_1", (3 : ℚ)/4⟩, ⟨"LABEL_0", (3 : ℚ)/4⟩]]).map
      (fun r => r.analysis.confidence) = some 150 ∧
    ¬((150 : Int) ≤ 100) := by
  refine ⟨?_, by decide⟩
  simp only [parseHuggingFaceResponse, Option.map_some, Option.some.injEq]
  simp only [lookupLabelScore, List.find?,
    show (decide (("LABEL_1" : String) = "LABEL_1")) = true from by decide,
    show (decide (("LABEL_1" : String) = "LABEL_0")) = false from by decide,
    show (decide (("LABEL_0" : String) = "LABEL_0")) = true from by decide]
  norm_num [jsRound]
